import Mathlib

/-!
Verification of the Viveo nutrition-ledger core (frontend/foodLog.js and
frontend/profile.js) against its natural-language specification.

Embedding conventions:
* JavaScript numbers are modelled as exact rationals (ℚ); the spec treats the
  aggregation as exact commutative/associative addition, and no claim here
  hinges on IEEE-754 rounding.
* `Number(x) || 0` applied to an untrusted field is modelled by `numberOrZero`
  over a `JSField` value that distinguishes a missing field, a non-numeric
  value (where `Number` yields NaN, which is falsy), and a numeric value.
* `x || 0` applied to an already-numeric field (in `updateCalorieData`) is
  modelled by `jsOrZero`: on numbers, JavaScript `|| 0` only replaces the
  falsy number 0 by 0.
* Timestamps (`Date.now()` milliseconds) are modelled as ℤ.
* DOM access, network calls, and `confirm()` dialogs are outside the embedded
  state; `confirm()` results appear as explicit boolean parameters where the
  control flow depends on them.
-/

namespace Viveo

/-- A logged food item as built by foodLog.js (nutrition fields only; the
string fields `quantity`, `food_review`, `meal_type` play no role in any
aggregation and are carried as plain data). -/
structure FoodEntry where
  id : String
  text : String
  calories : ℚ
  protein : ℚ
  carbs : ℚ
  fat : ℚ
  fiber : ℚ
  deriving DecidableEq, Repr

/-- JavaScript `x || 0` on a number: only the falsy number 0 maps to 0. -/
def jsOrZero (q : ℚ) : ℚ := if q = 0 then 0 else q

/-- An untrusted field of an upstream JSON response: absent, present but
non-numeric (so `Number(...)` yields NaN), or a number. -/
inductive JSField where
  | missing
  | invalid
  | num (q : ℚ)
  deriving DecidableEq, Repr

/-- Embedding of `Number(field) || 0` from foodLog.js lines 50–54 and 200–204:
`Number` of a missing or non-numeric value is NaN, which is falsy, so the
result is 0; a numeric value passes through (`0 || 0` is 0). -/
def numberOrZero : JSField → ℚ
  | JSField.missing => 0
  | JSField.invalid => 0
  | JSField.num q => if q = 0 then 0 else q

/-- The nutrition-bearing part of a response from the nutrition-resolution
backend (`structuredData` in `logFood`, `entry` in `loadFoodEntriesForDate`);
the backend field is named `fats`. -/
structure NutritionResponse where
  calories : JSField
  protein : JSField
  carbs : JSField
  fats : JSField
  fiber : JSField
  deriving DecidableEq, Repr

/-- Construction of a frontend entry from an upstream response, as in
`logFood` (foodLog.js 47–59) and `loadFoodEntriesForDate` (197–209): every
nutrition field is `Number(raw) || 0`. -/
def entryFromResponse (entryId text : String) (r : NutritionResponse) : FoodEntry :=
  { id := entryId
    text := text
    calories := numberOrZero r.calories
    protein := numberOrZero r.protein
    carbs := numberOrZero r.carbs
    fat := numberOrZero r.fats
    fiber := numberOrZero r.fiber }

/-- Activity levels recognised by profile.js; `other` stands for any string
that is not a key of `activityMultipliers` (the lookup then yields
`undefined || 1.55`). -/
inductive ActivityLevel where
  | sedentary
  | lightly_active
  | moderately_active
  | very_active
  | extremely_active
  | other
  deriving DecidableEq, Repr

/-- The user's goal profile (config.js `userProfile`): goal numbers plus
optional biometrics. `none` models JavaScript `null`/NaN. -/
structure UserProfile where
  calorieGoal : ℚ
  proteinGoal : ℚ
  carbsGoal : ℚ
  fatsGoal : ℚ
  age : Option ℚ
  weight : Option ℚ
  height : Option ℚ
  activityLevel : ActivityLevel
  deriving DecidableEq, Repr

/-- Per-macro display data built inside `updateCalorieData`. -/
structure MacroStatus where
  consumed : ℚ
  target : ℚ
  left : ℚ
  deriving DecidableEq, Repr

/-- The derived calorie/macro view produced by `updateCalorieData`
(`calorieData.intake`, `calorieData.left`, and the local `macroData`). -/
structure CalorieView where
  intake : ℚ
  left : ℚ
  protein : MacroStatus
  carbs : MacroStatus
  fat : MacroStatus
  deriving DecidableEq, Repr

/-- Embedding of `updateCalorieData` (foodLog.js 567–597): reduce-based totals over the
entry list, then `left = Math.max(0, goal - total)` per calories and per
macro. `calorieTarget` is `calorieData.target`. -/
def updateCalorieData (entries : List FoodEntry) (profile : UserProfile)
    (calorieTarget : ℚ) : CalorieView :=
  let totalCalories := entries.foldl (fun sum entry => sum + jsOrZero entry.calories) 0
  let totalProtein := entries.foldl (fun sum entry => sum + jsOrZero entry.protein) 0
  let totalCarbs := entries.foldl (fun sum entry => sum + jsOrZero entry.carbs) 0
  let totalFat := entries.foldl (fun sum entry => sum + jsOrZero entry.fat) 0
  { intake := totalCalories
    left := max 0 (calorieTarget - totalCalories)
    protein :=
      { consumed := totalProtein
        target := profile.proteinGoal
        left := max 0 (profile.proteinGoal - totalProtein) }
    carbs :=
      { consumed := totalCarbs
        target := profile.carbsGoal
        left := max 0 (profile.carbsGoal - totalCarbs) }
    fat :=
      { consumed := totalFat
        target := profile.fatsGoal
        left := max 0 (profile.fatsGoal - totalFat) } }

/-- The progress value of `updateCalorieProgress` (foodLog.js 611):
`Math.min((intake / target) * 100, 100)`. -/
def progressPercent (intake target : ℚ) : ℚ :=
  min ((intake / target) * 100) 100

/-- The three colour bands of the progress bar (foodLog.js 615–621). -/
inductive ProgressBand where
  | overTarget
  | warning
  | onTrack
  deriving DecidableEq, Repr

/-- Band selection of `updateCalorieProgress` (foodLog.js 615–621), applied
to the already-clamped `progress` value: red if `progress > 100`, orange if
`progress > 80`, green otherwise. -/
def progressBand (intake target : ℚ) : ProgressBand :=
  let progress := progressPercent intake target
  if progress > 100 then ProgressBand.overTarget
  else if progress > 80 then ProgressBand.warning
  else ProgressBand.onTrack

/-- Embedding of `calculateBMR` (profile.js 197–203); `gender` defaults to male at the
JavaScript call sites. -/
def calculateBMR (weight height age : ℚ) (gender : Bool) : ℚ :=
  if gender then
    88.362 + (13.397 * weight) + (4.799 * height) - (5.677 * age)
  else
    447.593 + (9.247 * weight) + (3.098 * height) - (4.330 * age)

/-- The offset-formula variant written out in the specification (§4.3),
stated independently of the source for the refinement check: `true` is
male, `false` is female. -/
def specOffsetBMR (weight height age : ℚ) (gender : Bool) : ℚ :=
  if gender then
    88.362 + 13.397 * weight + 4.799 * height - 5.677 * age
  else
    447.593 + 9.247 * weight + 3.098 * height - 4.330 * age

/-- Embedding of `activityMultipliers[activityLevel] || 1.55` (profile.js 208–216). -/
def activityMultiplier : ActivityLevel → ℚ
  | ActivityLevel.sedentary => 1.2
  | ActivityLevel.lightly_active => 1.375
  | ActivityLevel.moderately_active => 1.55
  | ActivityLevel.very_active => 1.725
  | ActivityLevel.extremely_active => 1.9
  | ActivityLevel.other => 1.55

/-- Embedding of `calculateDailyCalories` (profile.js 206–218): `Math.round(bmr *
multiplier)`; `Math.round` is floor of x + 1/2, which is Mathlib `round`
on ℚ. -/
def calculateDailyCalories (weight height age : ℚ) (activityLevel : ActivityLevel)
    (gender : Bool) : ℤ :=
  round (calculateBMR weight height age gender * activityMultiplier activityLevel)

/-- The form data assembled in `saveProfileSettings` (profile.js 41–50):
`parseInt`/`parseFloat` of a field that does not parse is NaN, modelled as
`none`; for `age`/`weight`/`height` the source applies `|| null`, so 0 also
becomes `none` there. -/
structure ProfileForm where
  calorieGoal : Option ℚ
  proteinGoal : Option ℚ
  carbsGoal : Option ℚ
  fatsGoal : Option ℚ
  age : Option ℚ
  weight : Option ℚ
  height : Option ℚ
  activityLevel : ActivityLevel
  deriving DecidableEq, Repr

/-- JavaScript falsiness of an optional number (`!x`): NaN/null are falsy,
and so is the number 0. -/
def jsFalsy : Option ℚ → Bool
  | none => true
  | some q => q == 0

/-- Embedding of `saveProfileSettings` (profile.js 34–111), restricted to its effect on
the profile state. Returns `none` when the guard at lines 53–56 rejects the
form (`!formData.calorieGoal || ...`), in which case the function returns
before touching `userProfile`. Otherwise the recommended-calories dialog
(59–80) may replace `calorieGoal` when age, weight and height are all truthy,
the difference to `calculateDailyCalories` exceeds 300, and the user accepts
the `confirm()` dialog (modelled by `confirmUpdate`); the new profile is then
`{...userProfile, ...formData}`, i.e. every field of the form, nulls
included, overwrites the previous value. -/
def saveProfileSettings (form : ProfileForm) (confirmUpdate : Bool) :
    Option UserProfile :=
  if jsFalsy form.calorieGoal || jsFalsy form.proteinGoal ||
      jsFalsy form.carbsGoal || jsFalsy form.fatsGoal then
    none
  else
    let calorieGoal :=
      if !jsFalsy form.age && !jsFalsy form.weight && !jsFalsy form.height then
        let calculated : ℚ :=
          calculateDailyCalories (form.weight.getD 0) (form.height.getD 0)
            (form.age.getD 0) form.activityLevel true
        if 300 < |form.calorieGoal.getD 0 - calculated| && confirmUpdate then
          calculated
        else form.calorieGoal.getD 0
      else form.calorieGoal.getD 0
    some
      { calorieGoal := calorieGoal
        proteinGoal := form.proteinGoal.getD 0
        carbsGoal := form.carbsGoal.getD 0
        fatsGoal := form.fatsGoal.getD 0
        age := form.age
        weight := form.weight
        height := form.height
        activityLevel := form.activityLevel }

/-- The profile state after a `saveProfileSettings` call: on rejection the
previous profile is untouched. -/
def saveProfileSettingsState (form : ProfileForm) (prev : UserProfile)
    (confirmUpdate : Bool) : UserProfile :=
  (saveProfileSettings form confirmUpdate).getD prev

/-- One element of the undo stack (foodLog.js 720–723): a copy of the
deleted entry and the `Date.now()` of the deletion. -/
structure UndoItem where
  entry : FoodEntry
  timestamp : ℤ
  deriving DecidableEq, Repr

/-- The constant `MAX_UNDO_STACK` (foodLog.js 717). -/
def MAX_UNDO_STACK : ℕ := 10

/-- Embedding of `addToUndoStack` (foodLog.js 719–733): unshift, truncate to the first
`MAX_UNDO_STACK` elements when over capacity, then drop every item whose
timestamp is not strictly newer than five minutes ago. -/
def addToUndoStack (e : FoodEntry) (now : ℤ) (stack : List UndoItem) :
    List UndoItem :=
  let s1 := UndoItem.mk e now :: stack
  let s2 := if MAX_UNDO_STACK < s1.length then s1.take MAX_UNDO_STACK else s1
  let fiveMinutesAgo := now - 5 * 60 * 1000
  s2.filter (fun item => fiveMinutesAgo < item.timestamp)

/-- Embedding of `undoLastDelete` (foodLog.js 735–754), restricted to the stack: `shift`
removes and returns the first element; an empty stack is reported and
nothing changes. No timestamp is consulted here. -/
def undoLastDelete (stack : List UndoItem) : Option (UndoItem × List UndoItem) :=
  match stack with
  | [] => none
  | h :: t => some (h, t)

/-- A push or pop on the undo stack, for reasoning about arbitrary
operation sequences; a push carries the `Date.now()` at which it runs. -/
inductive UndoOp where
  | push (e : FoodEntry) (now : ℤ)
  | pop

/-- One operation applied to a stack state. -/
def stepUndo (s : List UndoItem) : UndoOp → List UndoItem
  | UndoOp.push e now => addToUndoStack e now s
  | UndoOp.pop =>
    match undoLastDelete s with
    | none => s
    | some (_, t) => t

/-- Run a sequence of undo-stack operations from a starting state. -/
def runUndoOps : List UndoOp → List UndoItem → List UndoItem
  | [], s => s
  | op :: ops, s => runUndoOps ops (stepUndo s op)

/-- The `Date.now()` values of the pushes of an operation sequence, in
order. -/
def pushTimes : List UndoOp → List ℤ
  | [] => []
  | UndoOp.push _ t :: ops => t :: pushTimes ops
  | UndoOp.pop :: ops => pushTimes ops

/-- The local ledger state of foodLog.js: the `foodEntries` array and the
`deletedEntriesStack`. -/
structure LedgerState where
  entries : List FoodEntry
  undoStack : List UndoItem
  deriving DecidableEq, Repr

/-- Embedding of `deleteFoodEntry` (foodLog.js 455–522) on the success path, restricted
to its effect on the local state: an out-of-range index is rejected with no
change; otherwise the entry is pushed onto the undo stack (line 477) and
then spliced out of `foodEntries` (line 498). -/
def deleteFoodEntry (index : ℕ) (now : ℤ) (st : LedgerState) : LedgerState :=
  match st.entries[index]? with
  | none => st
  | some entryToDelete =>
    { entries := st.entries.eraseIdx index
      undoStack := addToUndoStack entryToDelete now st.undoStack }

/-- Embedding of `undoLastDelete` (foodLog.js 735–754) as a transition on the full
ledger state: shift the stack and push the restored entry onto the end of
`foodEntries` (a fresh id would be generated when the stored id is empty;
no nutrition field changes). -/
def undoLastDeleteState (st : LedgerState) : LedgerState :=
  match undoLastDelete st.undoStack with
  | none => st
  | some (item, rest) =>
    { entries := st.entries ++ [item.entry]
      undoStack := rest }

/-- The two demo entries of `loadSampleFoodData` (foodLog.js 647–677), used
as the concrete entries of the specification's scenario (calories 350 and
180). -/
def sampleChicken : FoodEntry :=
  { id := "sample-1"
    text := "Grilled Chicken Breast with Rice"
    calories := 350
    protein := 35
    carbs := 30
    fat := 8
    fiber := 2 }

/-- Second demo entry of `loadSampleFoodData`. -/
def sampleSalad : FoodEntry :=
  { id := "sample-2"
    text := "Mixed Green Salad with Avocado"
    calories := 180
    protein := 4
    carbs := 12
    fat := 15
    fiber := 8 }

/-- The default `userProfile` of config.js. -/
def defaultProfile : UserProfile :=
  { calorieGoal := 2000
    proteinGoal := 150
    carbsGoal := 250
    fatsGoal := 65
    age := none
    weight := none
    height := none
    activityLevel := ActivityLevel.moderately_active }

/-- A form that asks to set `calorieGoal` to −5 with the other goals at
their defaults and no biometrics. -/
def negativeGoalForm : ProfileForm :=
  { calorieGoal := some (-5)
    proteinGoal := some 150
    carbsGoal := some 250
    fatsGoal := some 65
    age := none
    weight := none
    height := none
    activityLevel := ActivityLevel.moderately_active }

/-- A form that asks to set `calorieGoal` to 0 (the scenario
`GoalProfile.update with calorieGoal 0`). -/
def zeroGoalForm : ProfileForm :=
  { calorieGoal := some 0
    proteinGoal := some 150
    carbsGoal := some 250
    fatsGoal := some 65
    age := none
    weight := none
    height := none
    activityLevel := ActivityLevel.moderately_active }

/-- An upstream nutrition response carrying a negative calorie count next to
missing and non-numeric fields. -/
def negativeCaloriesResponse : NutritionResponse :=
  { calories := JSField.num (-100)
    protein := JSField.missing
    carbs := JSField.invalid
    fats := JSField.num 10
    fiber := JSField.num 0 }

/-! ## Helper lemmas -/

/-- A reduce-style fold with `+` equals the initial value plus the sum of the
mapped list. -/
lemma foldl_add_eq_sum (f : FoodEntry → ℚ) (a : ℚ) (l : List FoodEntry) :
    l.foldl (fun sum entry => sum + f entry) a = a + (l.map f).sum := by
  induction l generalizing a with
  | nil => simp
  | cons x xs ih =>
    simp only [List.foldl_cons, List.map_cons, List.sum_cons, ih]
    ring

/-- The view of `updateCalorieData` is invariant under permutation of the entry list. -/
lemma updateCalorieData_perm (l1 l2 : List FoodEntry) (p : UserProfile) (t : ℚ)
    (h : l1.Perm l2) : updateCalorieData l1 p t = updateCalorieData l2 p t := by
  have hs : ∀ f : FoodEntry → ℚ, (l1.map f).sum = (l2.map f).sum := fun f =>
    (h.map f).sum_eq
  simp only [updateCalorieData, foldl_add_eq_sum, zero_add, hs]

/-- Removing the element at a valid index and appending it at the end is a
permutation of the original list. -/
lemma eraseIdx_append_extracted_perm :
    ∀ (l : List FoodEntry) (i : ℕ) (e : FoodEntry), l[i]? = some e →
      (l.eraseIdx i ++ [e]).Perm l := by
  intro l
  induction l with
  | nil => intro i e h; simp at h
  | cons a tl ih =>
    intro i e h
    cases i with
    | zero =>
      simp only [List.getElem?_cons_zero, Option.some.injEq] at h
      subst h
      simp only [List.eraseIdx]
      exact List.perm_append_singleton a tl
    | succ n =>
      simp only [List.getElem?_cons_succ] at h
      simpa [List.eraseIdx] using (ih n e h).cons a

/-- A push produces a sublist of the freshly consed stack. -/
lemma addToUndoStack_sublist (e : FoodEntry) (now : ℤ) (s : List UndoItem) :
    (addToUndoStack e now s).Sublist (UndoItem.mk e now :: s) := by
  simp only [addToUndoStack]
  refine List.Sublist.trans (List.filter_sublist _) ?_
  split_ifs
  · exact List.take_sublist _ _
  · exact List.Sublist.refl _

/-- The stack never exceeds `MAX_UNDO_STACK` after a push, whatever its
previous length. -/
lemma addToUndoStack_length (e : FoodEntry) (now : ℤ) (s : List UndoItem) :
    (addToUndoStack e now s).length ≤ MAX_UNDO_STACK := by
  simp only [addToUndoStack]
  split_ifs with hlen
  · refine le_trans (List.length_filter_le _ _) ?_
    rw [List.length_take]
    exact min_le_left _ _
  · exact le_trans (List.length_filter_le _ _) (not_lt.mp hlen)

/-- A push leaves the new item at the front of the stack: the truncation
keeps the first ten elements and the purge keeps the fresh item, whose
timestamp is strictly newer than five minutes before `now`. -/
lemma addToUndoStack_eq_cons (e : FoodEntry) (now : ℤ) (s : List UndoItem) :
    ∃ rest, addToUndoStack e now s = UndoItem.mk e now :: rest := by
  have hsucc : MAX_UNDO_STACK = 9 + 1 := by norm_num [MAX_UNDO_STACK]
  simp only [addToUndoStack]
  split_ifs with hlen
  · rw [hsucc, List.take_succ_cons]
    simp only [List.filter_cons, decide_eq_true_eq]
    split_ifs with hp
    · exact ⟨_, rfl⟩
    · exact absurd (by omega) hp
  · simp only [List.filter_cons, decide_eq_true_eq]
    split_ifs with hp
    · exact ⟨_, rfl⟩
    · exact absurd (by omega) hp

/-- Stack states are ordered newest-first by deletion timestamp. -/
abbrev StackSortedByTime (s : List UndoItem) : Prop :=
  List.Pairwise (fun a b => b.timestamp ≤ a.timestamp) s

/-- Invariant preservation for arbitrary push/pop sequences: provided the
wall clock is monotone across the pushes still to come and every current
item was pushed no later than those, the stack stays within capacity and
newest-first order. -/
lemma runUndoOps_invariant (ops : List UndoOp) (s : List UndoItem)
    (hlen : s.length ≤ MAX_UNDO_STACK)
    (hsort : StackSortedByTime s)
    (hfuture : ∀ it ∈ s, ∀ t ∈ pushTimes ops, it.timestamp ≤ t)
    (hmono : List.Pairwise (fun a b => a ≤ b) (pushTimes ops)) :
    (runUndoOps ops s).length ≤ MAX_UNDO_STACK ∧
    StackSortedByTime (runUndoOps ops s) := by
  induction ops generalizing s with
  | nil => exact ⟨hlen, hsort⟩
  | cons op ops ih =>
    cases op with
    | push e now =>
      have hmono2 : List.Pairwise (fun a b => a ≤ b) (now :: pushTimes ops) := hmono
      have hrun : runUndoOps (UndoOp.push e now :: ops) s =
          runUndoOps ops (addToUndoStack e now s) := rfl
      rw [hrun]
      have hsub := (addToUndoStack_sublist e now s).subset
      refine ih (addToUndoStack e now s) (addToUndoStack_length _ _ _) ?_ ?_
        (List.Pairwise.of_cons hmono2)
      · refine List.Pairwise.sublist (addToUndoStack_sublist e now s) ?_
        refine List.Pairwise.cons ?_ hsort
        intro b hb
        exact hfuture b hb now (List.mem_cons_self _ _)
      · intro it hit t ht
        rcases List.mem_cons.mp (hsub hit) with heq | hmem
        · rw [heq]
          exact List.rel_of_pairwise_cons hmono2 ht
        · exact hfuture it hmem t (List.mem_cons_of_mem now ht)
    | pop =>
      cases s with
      | nil =>
        have hrun : runUndoOps (UndoOp.pop :: ops) ([] : List UndoItem) =
            runUndoOps ops [] := rfl
        rw [hrun]
        refine ih [] hlen hsort ?_ hmono
        intro it hit
        simp at hit
      | cons hd tl =>
        have hrun : runUndoOps (UndoOp.pop :: ops) (hd :: tl) = runUndoOps ops tl := rfl
        rw [hrun]
        refine ih tl (le_trans (Nat.le_succ _) hlen) (List.Pairwise.of_cons hsort) ?_ hmono
        intro it hit t ht
        exact hfuture it (List.mem_cons_of_mem hd hit) t ht

/-! ## Claims -/

/-- Claim C1: for every finite list of food entries and every permutation of
that list, `updateCalorieData` produces identical totals for calories,
protein, carbs, and fat: the summed totals do not depend on the order in
which entries appear. -/
theorem updateCalorieData_order_independent (l1 l2 : List FoodEntry)
    (p : UserProfile) (t : ℚ) (h : l1.Perm l2) :
    (updateCalorieData l1 p t).intake = (updateCalorieData l2 p t).intake ∧
    (updateCalorieData l1 p t).protein.consumed =
      (updateCalorieData l2 p t).protein.consumed ∧
    (updateCalorieData l1 p t).carbs.consumed =
      (updateCalorieData l2 p t).carbs.consumed ∧
    (updateCalorieData l1 p t).fat.consumed =
      (updateCalorieData l2 p t).fat.consumed := by
  rw [updateCalorieData_perm l1 l2 p t h]
  exact ⟨rfl, rfl, rfl, rfl⟩

/-- Witness for C1: swapping the two sample entries leaves all four totals
unchanged. -/
theorem updateCalorieData_order_independent_witness :
    (updateCalorieData [sampleChicken, sampleSalad] defaultProfile 2000).intake =
      (updateCalorieData [sampleSalad, sampleChicken] defaultProfile 2000).intake ∧
    (updateCalorieData [sampleChicken, sampleSalad] defaultProfile 2000).protein.consumed =
      (updateCalorieData [sampleSalad, sampleChicken] defaultProfile 2000).protein.consumed ∧
    (updateCalorieData [sampleChicken, sampleSalad] defaultProfile 2000).carbs.consumed =
      (updateCalorieData [sampleSalad, sampleChicken] defaultProfile 2000).carbs.consumed ∧
    (updateCalorieData [sampleChicken, sampleSalad] defaultProfile 2000).fat.consumed =
      (updateCalorieData [sampleSalad, sampleChicken] defaultProfile 2000).fat.consumed :=
  updateCalorieData_order_independent [sampleChicken, sampleSalad]
    [sampleSalad, sampleChicken] defaultProfile 2000
    (List.Perm.swap sampleSalad sampleChicken [])

/-- Claim C2: for every entry set and goal profile, the remaining-to-target
values of `updateCalorieData` equal `max 0 (goal - consumed)` separately for
calories, protein, carbs, and fat, and are therefore never negative. -/
theorem updateCalorieData_remaining_clamped (entries : List FoodEntry)
    (p : UserProfile) (t : ℚ) :
    (updateCalorieData entries p t).left =
      max 0 (t - (updateCalorieData entries p t).intake) ∧
    0 ≤ (updateCalorieData entries p t).left ∧
    (updateCalorieData entries p t).protein.left =
      max 0 (p.proteinGoal - (updateCalorieData entries p t).protein.consumed) ∧
    0 ≤ (updateCalorieData entries p t).protein.left ∧
    (updateCalorieData entries p t).carbs.left =
      max 0 (p.carbsGoal - (updateCalorieData entries p t).carbs.consumed) ∧
    0 ≤ (updateCalorieData entries p t).carbs.left ∧
    (updateCalorieData entries p t).fat.left =
      max 0 (p.fatsGoal - (updateCalorieData entries p t).fat.consumed) ∧
    0 ≤ (updateCalorieData entries p t).fat.left :=
  ⟨rfl, le_max_left 0 _, rfl, le_max_left 0 _, rfl, le_max_left 0 _, rfl,
    le_max_left 0 _⟩

/-- Claim C3: for every calorie intake ≥ 0 and calorie goal > 0, the
progress value of `updateCalorieProgress` equals
`min 100 (100 * intake / goal)` and lies in [0, 100]; in particular the two
scenario entries with calories 350 and 180 under a goal of 2000 give intake
530, remaining 1470, and progress 26.5. -/
theorem updateCalorieProgress_formula_and_scenario :
    (∀ intake goal : ℚ, 0 ≤ intake → 0 < goal →
      progressPercent intake goal = min 100 (100 * intake / goal) ∧
      0 ≤ progressPercent intake goal ∧ progressPercent intake goal ≤ 100) ∧
    (updateCalorieData [sampleChicken, sampleSalad] defaultProfile 2000).intake = 530 ∧
    (updateCalorieData [sampleChicken, sampleSalad] defaultProfile 2000).left = 1470 ∧
    progressPercent 530 2000 = 26.5 := by
  refine ⟨?_, ?_, ?_, ?_⟩
  · intro intake goal h0 hg
    refine ⟨?_, ?_, min_le_right _ _⟩
    · rw [progressPercent, min_comm]
      congr 1
      ring
    · refine le_min ?_ (by norm_num)
      positivity
  · norm_num [updateCalorieData, sampleChicken, sampleSalad, jsOrZero]
  · norm_num [updateCalorieData, sampleChicken, sampleSalad, jsOrZero, max_def]
  · norm_num [progressPercent, min_def]

/-- Witness for C3: the universally quantified part instantiated at the
scenario values intake 530 and goal 2000. -/
theorem updateCalorieProgress_formula_witness :
    progressPercent 530 2000 = min 100 (100 * 530 / 2000) ∧
    0 ≤ progressPercent 530 2000 ∧ progressPercent 530 2000 ≤ 100 :=
  updateCalorieProgress_formula_and_scenario.1 530 2000 (by norm_num) (by norm_num)

/-- Claim C4, counterexample: at intake 1600 and goal 2000 the progress is
exactly 80%, yet the band is not the warning band (the source tests
`progress > 80` strictly), and at intake 2500 (above the goal) the band is
not the over-target band (the source tests the already-clamped progress
against 100). -/
theorem progressBand_claim_counterexample :
    progressPercent 1600 2000 = 80 ∧
    progressBand 1600 2000 ≠ ProgressBand.warning ∧
    progressBand 2500 2000 ≠ ProgressBand.overTarget := by
  have h80 : progressPercent 1600 2000 = 80 := by norm_num [progressPercent, min_def]
  have h100 : progressPercent 2500 2000 = 100 := by norm_num [progressPercent, min_def]
  refine ⟨h80, ?_, ?_⟩
  · simp only [progressBand, h80]
    norm_num
    decide
  · simp only [progressBand, h100]
    norm_num
    decide

/-- Claim C4 (amended): the band is chosen from the clamped progress value,
so the over-target band is unreachable; the warning band holds exactly when
the progress is strictly between 80 and its cap 100, and the on-track band
exactly when it is at most 80. In particular a progress of exactly 80% is
on-track, and an intake above the goal yields the warning band. -/
theorem progressBand_thresholds :
    (∀ intake goal : ℚ,
      progressBand intake goal ≠ ProgressBand.overTarget ∧
      (progressBand intake goal = ProgressBand.warning ↔
        80 < progressPercent intake goal) ∧
      (progressBand intake goal = ProgressBand.onTrack ↔
        progressPercent intake goal ≤ 80)) ∧
    progressBand 1600 2000 = ProgressBand.onTrack ∧
    progressBand 2500 2000 = ProgressBand.warning := by
  refine ⟨?_, ?_, ?_⟩
  · intro intake goal
    have hle : progressPercent intake goal ≤ 100 := min_le_right _ _
    rw [progressBand]
    split_ifs with h1 h2
    · exact absurd hle (not_le.mpr h1)
    · exact ⟨by decide, iff_of_true rfl h2, iff_of_false (by decide) (not_le.mpr h2)⟩
    · exact ⟨by decide, iff_of_false (by decide) h2, iff_of_true rfl (not_lt.mp h2)⟩
  · have h80 : progressPercent 1600 2000 = 80 := by norm_num [progressPercent, min_def]
    simp only [progressBand, h80]
    norm_num
  · have h100 : progressPercent 2500 2000 = 100 := by norm_num [progressPercent, min_def]
    simp only [progressBand, h100]
    norm_num

/-- Witness for C4 (amended): the threshold characterisation instantiated
at intake 1600 and goal 2000. -/
theorem progressBand_thresholds_witness :
    progressBand 1600 2000 ≠ ProgressBand.overTarget ∧
    (progressBand 1600 2000 = ProgressBand.warning ↔
      80 < progressPercent 1600 2000) ∧
    (progressBand 1600 2000 = ProgressBand.onTrack ↔
      progressPercent 1600 2000 ≤ 80) :=
  progressBand_thresholds.1 1600 2000

/-- Claim C10: `calculateBMR` computes exactly the documented offset-formula
variant for both genders. -/
theorem calculateBMR_offset_formula (w h a : ℚ) (g : Bool) :
    calculateBMR w h a g = specOffsetBMR w h a g := by
  cases g <;> rfl

/-- JavaScript falsiness of an optional number is being absent (NaN/null) or
being exactly 0. -/
lemma jsFalsy_eq_true_iff (v : Option ℚ) :
    jsFalsy v = true ↔ v = none ∨ v = some 0 := by
  cases v with
  | none => simp [jsFalsy]
  | some q => simp [jsFalsy, beq_iff_eq]

/-- Claim C5, counterexample: a requested `calorieGoal` of −5 is not
rejected by `saveProfileSettings` (the guard only tests JavaScript
falsiness, `!formData.calorieGoal`, which a negative number passes), and
the stored profile changes. -/
theorem saveProfileSettings_claim_counterexample :
    negativeGoalForm.calorieGoal = some (-5) ∧
    saveProfileSettings negativeGoalForm true ≠ none ∧
    saveProfileSettingsState negativeGoalForm defaultProfile true ≠ defaultProfile := by
  have hres : saveProfileSettings negativeGoalForm true =
      some
        { calorieGoal := -5
          proteinGoal := 150
          carbsGoal := 250
          fatsGoal := 65
          age := none
          weight := none
          height := none
          activityLevel := ActivityLevel.moderately_active } := by
    norm_num [saveProfileSettings, negativeGoalForm, jsFalsy, beq_iff_eq]
  refine ⟨rfl, ?_, ?_⟩
  · rw [hres]
    simp
  · rw [saveProfileSettingsState, hres]
    norm_num [defaultProfile, UserProfile.mk.injEq]

/-- Claim C5 (amended): `saveProfileSettings` rejects the update exactly
when one of the four goal fields is missing (NaN) or exactly 0 — JavaScript
falsiness, not the specified `≤ 0` test — and on rejection the previous
profile is retained unchanged. Negative goal values are accepted. -/
theorem saveProfileSettings_rejects_falsy_goals (form : ProfileForm)
    (prev : UserProfile) (c : Bool) :
    (saveProfileSettings form c = none ↔
      form.calorieGoal = none ∨ form.calorieGoal = some 0 ∨
      form.proteinGoal = none ∨ form.proteinGoal = some 0 ∨
      form.carbsGoal = none ∨ form.carbsGoal = some 0 ∨
      form.fatsGoal = none ∨ form.fatsGoal = some 0) ∧
    (saveProfileSettings form c = none →
      saveProfileSettingsState form prev c = prev) := by
  constructor
  · have hnone : saveProfileSettings form c = none ↔
        (jsFalsy form.calorieGoal || jsFalsy form.proteinGoal ||
         jsFalsy form.carbsGoal || jsFalsy form.fatsGoal) = true := by
      simp only [saveProfileSettings]
      split_ifs with hb
      · simp [hb]
      · simp [hb]
    rw [hnone]
    simp only [Bool.or_eq_true, jsFalsy_eq_true_iff]
    tauto
  · intro hrej
    simp [saveProfileSettingsState, hrej]

/-- Witness for C5 (amended): the scenario update with `calorieGoal` 0 is
rejected and the default profile is retained unchanged. -/
theorem saveProfileSettings_rejects_falsy_goals_witness :
    saveProfileSettingsState zeroGoalForm defaultProfile true = defaultProfile :=
  (saveProfileSettings_rejects_falsy_goals zeroGoalForm defaultProfile true).2
    (((saveProfileSettings_rejects_falsy_goals zeroGoalForm defaultProfile true).1).mpr
      (Or.inr (Or.inl rfl)))

/-- Claim C6, counterexample: an upstream response with calories −100
produces an entry whose `calories` field is −100, a negative value — the
`Number(x) || 0` coercion passes negative numbers through. -/
theorem entryFromResponse_claim_counterexample :
    (entryFromResponse "e1" "demo" negativeCaloriesResponse).calories = -100 ∧
    ¬ 0 ≤ (entryFromResponse "e1" "demo" negativeCaloriesResponse).calories := by
  have h : (entryFromResponse "e1" "demo" negativeCaloriesResponse).calories = -100 := by
    norm_num [entryFromResponse, negativeCaloriesResponse, numberOrZero]
  refine ⟨h, ?_⟩
  rw [h]
  norm_num

/-- Claim C6 (amended): every nutrition field of an entry built from an
upstream response is `Number(raw) || 0`: missing or non-numeric values are
coerced to 0, while any numeric value — including a negative one — passes
through unchanged, so non-negativity is not guaranteed. -/
theorem entryFromResponse_coercion (entryId text : String)
    (r : NutritionResponse) (q : ℚ) :
    (entryFromResponse entryId text r).calories = numberOrZero r.calories ∧
    (entryFromResponse entryId text r).protein = numberOrZero r.protein ∧
    (entryFromResponse entryId text r).carbs = numberOrZero r.carbs ∧
    (entryFromResponse entryId text r).fat = numberOrZero r.fats ∧
    (entryFromResponse entryId text r).fiber = numberOrZero r.fiber ∧
    numberOrZero JSField.missing = 0 ∧
    numberOrZero JSField.invalid = 0 ∧
    numberOrZero (JSField.num q) = q := by
  refine ⟨rfl, rfl, rfl, rfl, rfl, rfl, rfl, ?_⟩
  simp only [numberOrZero]
  split_ifs with hq
  · rw [hq]
  · rfl

/-- Claim C7: after every sequence of pushes and pops (with a monotone wall
clock across the pushes), the undo buffer holds at most `MAX_UNDO_STACK`
(= 10) elements, and a pop removes and returns the head of the buffer,
which is at least as recent as everything left behind (LIFO order). -/
theorem undoStack_bounded_and_lifo (ops : List UndoOp)
    (hmono : List.Pairwise (fun a b => a ≤ b) (pushTimes ops)) :
    (runUndoOps ops []).length ≤ MAX_UNDO_STACK ∧
    ∀ item rest, undoLastDelete (runUndoOps ops []) = some (item, rest) →
      runUndoOps ops [] = item :: rest ∧
      ∀ other ∈ rest, other.timestamp ≤ item.timestamp := by
  obtain ⟨hlen, hsort⟩ := runUndoOps_invariant ops []
    (by simp [MAX_UNDO_STACK]) (by simp) (by simp) hmono
  refine ⟨hlen, ?_⟩
  intro item rest hpop
  cases hs : runUndoOps ops [] with
  | nil =>
    rw [hs] at hpop
    simp [undoLastDelete] at hpop
  | cons hd tl =>
    rw [hs] at hpop
    simp only [undoLastDelete, Option.some.injEq, Prod.mk.injEq] at hpop
    obtain ⟨h1, h2⟩ := hpop
    subst h1
    subst h2
    refine ⟨rfl, ?_⟩
    rw [hs] at hsort
    intro other ho
    exact List.rel_of_pairwise_cons hsort ho

/-- Witness for C7: a push at time 0, a push at time 60000, and a pop keep
the buffer within capacity. -/
theorem undoStack_bounded_and_lifo_witness :
    (runUndoOps [UndoOp.push sampleChicken 0, UndoOp.push sampleSalad 60000,
      UndoOp.pop] []).length ≤ MAX_UNDO_STACK :=
  (undoStack_bounded_and_lifo
    [UndoOp.push sampleChicken 0, UndoOp.push sampleSalad 60000, UndoOp.pop]
    (by norm_num [pushTimes, List.pairwise_cons])).1

/-- Claim C8, counterexample: after a single push at time 0, a pop performed
at any later instant — say 400000 ms, which is more than five minutes
(300000 ms) after the deletion — still returns the entry deleted at time 0,
because `undoLastDelete` consults no clock and performs no purge; the purge
runs only inside `addToUndoStack`. -/
theorem undoLastDelete_no_purge_on_read :
    undoLastDelete (runUndoOps [UndoOp.push sampleChicken 0] []) =
      some (UndoItem.mk sampleChicken 0, []) ∧
    5 * 60 * 1000 < (400000 : ℤ) - 0 := by
  constructor
  · have hrun : runUndoOps [UndoOp.push sampleChicken 0] [] =
        [UndoItem.mk sampleChicken 0] := by
      norm_num [runUndoOps, stepUndo, addToUndoStack, MAX_UNDO_STACK, List.filter]
    rw [hrun]
    rfl
  · norm_num

/-- Claim C8 (amended): the five-minute purge runs lazily on push only:
after `addToUndoStack` at time `now`, every surviving item is strictly newer
than five minutes before `now`; `undoLastDelete`, by contrast, consults no
timestamp and returns the head of the stack whatever its age. -/
theorem undo_purge_on_push_only :
    (∀ (e : FoodEntry) (now : ℤ) (s : List UndoItem),
      ∀ item ∈ addToUndoStack e now s, now - 5 * 60 * 1000 < item.timestamp) ∧
    (∀ (item : UndoItem) (rest : List UndoItem),
      undoLastDelete (item :: rest) = some (item, rest)) := by
  constructor
  · intro e now s item hmem
    simp only [addToUndoStack, List.mem_filter, decide_eq_true_eq] at hmem
    exact hmem.2
  · intro item rest
    rfl

/-- Witness for C8 (amended): the push-purge bound instantiated at the item
just pushed at time 0. -/
theorem undo_purge_on_push_only_witness :
    (0 : ℤ) - 5 * 60 * 1000 < (UndoItem.mk sampleChicken 0).timestamp :=
  undo_purge_on_push_only.1 sampleChicken 0 [] (UndoItem.mk sampleChicken 0)
    (by norm_num [addToUndoStack, MAX_UNDO_STACK, List.mem_filter])

/-- Claim C9: deleting any existing entry and then undoing the deletion
restores ledger totals identical to those before the delete (the restored
entry is appended at the end, a permutation of the original list). -/
theorem deleteFoodEntry_undo_preserves_totals (st : LedgerState) (i : ℕ)
    (now : ℤ) (p : UserProfile) (t : ℚ) (h : i < st.entries.length) :
    updateCalorieData (undoLastDeleteState (deleteFoodEntry i now st)).entries p t =
      updateCalorieData st.entries p t := by
  have he : st.entries[i]? = some st.entries[i] := List.getElem?_eq_getElem h
  obtain ⟨rest, hrest⟩ := addToUndoStack_eq_cons st.entries[i] now st.undoStack
  have hentries : (undoLastDeleteState (deleteFoodEntry i now st)).entries =
      st.entries.eraseIdx i ++ [st.entries[i]] := by
    simp only [deleteFoodEntry, he]
    simp only [undoLastDeleteState, hrest, undoLastDelete]
  rw [hentries]
  exact updateCalorieData_perm _ _ p t (eraseIdx_append_extracted_perm st.entries i _ he)

/-- Witness for C9: deleting the first sample entry and undoing restores
the original totals. -/
theorem deleteFoodEntry_undo_preserves_totals_witness :
    updateCalorieData (undoLastDeleteState (deleteFoodEntry 0 0
        (LedgerState.mk [sampleChicken, sampleSalad] []))).entries defaultProfile 2000 =
      updateCalorieData
        (LedgerState.mk [sampleChicken, sampleSalad] []).entries defaultProfile 2000 :=
  deleteFoodEntry_undo_preserves_totals
    (LedgerState.mk [sampleChicken, sampleSalad] []) 0 0 defaultProfile 2000
    (by simp)

end Viveo
